import Mathlib

/-
Verification of the PVE_VM_Scripts repository against its specification.

The development shallowly embeds the two services of the repository:
  * the Proxmox provisioning manager (src/modules/pve_tools.py), namespace PVE;
  * the SFTP image manager (src/modules/image_manager.py) together with the
    orchestrator glue of src/main.py, namespace ImageSync.

External effects (the Proxmox REST API, the filesystem, the SFTP channel) are
modelled by explicit environment records; Python exceptions are modelled by
Except values that are caught exactly where the source catches them.  Logging
is treated as an external emit-log capability, per the specification scope,
and is not modelled.  Wall-clock time in the task-polling loop is modelled by
poll ticks: the loop sleeps one second between polls, so tick n is the poll
taken n seconds after the start.
-/

namespace PVE

/-- Result payload of the task-status endpoint
(`proxmox.nodes(node).tasks(upid).status.get()` in `_wait_for_task`):
the fields the code inspects are `status` and `exitstatus`. -/
structure TaskStatus where
  status : String
  exitstatus : String
deriving DecidableEq

/-- Default of the `timeout` parameter of `_wait_for_task`
(`timeout: int = 300` in src/modules/pve_tools.py line 68). -/
def defaultTaskTimeout : Nat := 300

/-- The polling loop of `_wait_for_task` (src/modules/pve_tools.py lines 70-81).
`poll t` is the status reported by the hypervisor at tick `t` (one tick per
second, matching the `time.sleep(1)` interval); `fuel` is the number of ticks
left before `time.time() - start_time < timeout` fails.  Running out of fuel
is the timeout branch (returns `False`); a poll reporting status `stopped`
returns whether the exit status is `OK`. -/
def waitLoop (poll : Nat → TaskStatus) : Nat → Nat → Bool
  | _, 0 => false
  | t, fuel + 1 =>
    if (poll t).status = "stopped" then
      (poll t).exitstatus == "OK"
    else
      waitLoop poll (t + 1) fuel

/-- `_wait_for_task` (src/modules/pve_tools.py lines 68-81): poll from tick 0
with `timeout` seconds of budget. -/
def wait_for_task (poll : Nat → TaskStatus) (timeout : Nat) : Bool :=
  waitLoop poll 0 timeout

/-- Stub status endpoint that reports `running` for the first three polls and
`stopped`/`OK` from the fourth on. -/
def stubRunThenOK : Nat → TaskStatus := fun n =>
  if n < 3 then ⟨"running", ""⟩ else ⟨"stopped", "OK"⟩

/-- Stub status endpoint that never leaves the `running` state. -/
def stubNeverStops : Nat → TaskStatus := fun _ => ⟨"running", ""⟩

/-- Stub status endpoint that is already stopped with a failing exit status. -/
def stubStoppedFail : Nat → TaskStatus := fun _ => ⟨"stopped", "some error"⟩

theorem waitLoop_true_iff (poll : Nat → TaskStatus) :
    ∀ (fuel t : Nat), waitLoop poll t fuel = true ↔
      ∃ k, k < fuel ∧ (poll (t + k)).status = "stopped" ∧
        (poll (t + k)).exitstatus = "OK" ∧
        ∀ j, j < k → (poll (t + j)).status ≠ "stopped"
  | 0, t => by simp [waitLoop]
  | fuel + 1, t => by
    rw [waitLoop]
    by_cases h : (poll t).status = "stopped"
    · simp only [h, if_true, beq_iff_eq]
      constructor
      · intro hok
        exact ⟨0, Nat.succ_pos fuel, by simpa using h, by simpa using hok,
          fun j hj => absurd hj (Nat.not_lt_zero j)⟩
      · rintro ⟨k, _, hs, he, hmin⟩
        cases k with
        | zero => simpa using he
        | succ k' => exact absurd h (hmin 0 (Nat.succ_pos k'))
    · simp only [h, if_false]
      rw [waitLoop_true_iff poll fuel (t + 1)]
      constructor
      · rintro ⟨k, hk, hs, he, hmin⟩
        refine ⟨k + 1, Nat.succ_lt_succ hk, ?_, ?_, ?_⟩
        · have : t + 1 + k = t + (k + 1) := by omega
          rwa [this] at hs
        · have : t + 1 + k = t + (k + 1) := by omega
          rwa [this] at he
        · intro j hj
          cases j with
          | zero => simpa using h
          | succ j' =>
            have hj' : j' < k := by omega
            have := hmin j' hj'
            have heq : t + 1 + j' = t + (j' + 1) := by omega
            rwa [heq] at this
      · rintro ⟨k, hk, hs, he, hmin⟩
        cases k with
        | zero => exact absurd (by simpa using hs) h
        | succ k' =>
          refine ⟨k', by omega, ?_, ?_, ?_⟩
          · have : t + (k' + 1) = t + 1 + k' := by omega
            rwa [this] at hs
          · have : t + (k' + 1) = t + 1 + k' := by omega
            rwa [this] at he
          · intro j hj
            have := hmin (j + 1) (by omega)
            have heq : t + (j + 1) = t + 1 + j := by omega
            rwa [heq] at this

/-- C2: `_wait_for_task` returns success exactly when some poll within the
timeout budget reports status `stopped` with exit status `OK` and no earlier
poll reported `stopped`; a first `stopped` poll with any other exit status
yields failure, and so does exhausting the timeout without a `stopped`
report.  Polls are one tick (one second) apart, the default timeout is 300,
and on the given stubs: `running` three times then `stopped`/`OK` succeeds
with the first three polls not `stopped`, while a task that never stops
fails within a 2-second timeout. -/
theorem wait_for_task_spec :
    (∀ (poll : Nat → TaskStatus) (timeout : Nat),
      wait_for_task poll timeout = true ↔
        ∃ k, k < timeout ∧ (poll k).status = "stopped" ∧
          (poll k).exitstatus = "OK" ∧
          ∀ j, j < k → (poll j).status ≠ "stopped")
    ∧ (∀ (poll : Nat → TaskStatus) (timeout k : Nat),
        k < timeout → (poll k).status = "stopped" →
        (poll k).exitstatus ≠ "OK" →
        (∀ j, j < k → (poll j).status ≠ "stopped") →
        wait_for_task poll timeout = false)
    ∧ (∀ (poll : Nat → TaskStatus) (timeout : Nat),
        (∀ k, k < timeout → (poll k).status ≠ "stopped") →
        wait_for_task poll timeout = false)
    ∧ defaultTaskTimeout = 300
    ∧ wait_for_task stubRunThenOK defaultTaskTimeout = true
    ∧ (∀ j, j < 3 → (stubRunThenOK j).status ≠ "stopped")
    ∧ wait_for_task stubNeverStops 2 = false := by
  have hiff : ∀ (poll : Nat → TaskStatus) (timeout : Nat),
      wait_for_task poll timeout = true ↔
        ∃ k, k < timeout ∧ (poll k).status = "stopped" ∧
          (poll k).exitstatus = "OK" ∧
          ∀ j, j < k → (poll j).status ≠ "stopped" := by
    intro poll timeout
    have := waitLoop_true_iff poll timeout 0
    simpa [wait_for_task] using this
  refine ⟨hiff, ?_, ?_, rfl, by decide, by decide, by decide⟩
  · intro poll timeout k hk hs he hmin
    rcases hwt : wait_for_task poll timeout with _ | _
    · rfl
    · exfalso
      rcases (hiff poll timeout).mp hwt with ⟨k', hk', hs', he', hmin'⟩
      rcases Nat.lt_trichotomy k k' with hlt | heq | hgt
      · exact hmin' k hlt hs
      · exact he (heq ▸ he')
      · exact hmin k' hgt hs'
  · intro poll timeout hall
    rcases hwt : wait_for_task poll timeout with _ | _
    · rfl
    · exfalso
      rcases (hiff poll timeout).mp hwt with ⟨k', hk', hs', _, _⟩
      exact hall k' hk' hs'

/-- Witness for C2: a first poll that is `stopped` with a failing exit status
makes `_wait_for_task` return failure. -/
theorem wait_for_task_spec_witness :
    wait_for_task stubStoppedFail 5 = false :=
  wait_for_task_spec.2.1 stubStoppedFail 5 0 (by decide) (by decide)
    (by decide) (fun j hj => absurd hj (Nat.not_lt_zero j))

/-- `str.startswith` over the character lists. -/
def strStartsWith (s pre : String) : Bool := List.isPrefixOf pre.toList s.toList

/-- Disk block of a VM spec (`vm_config['disk']`): either an import-from-
image request with an optional storage override, or a direct `scsi0`
volume reference. -/
structure VMDisk where
  import_img : Option String
  storage : Option String
  scsi0 : Option String
deriving DecidableEq

/-- Cloud-init block of a VM spec (`vm_config['ci']`). -/
structure CloudInit where
  user : Option String
  password : Option String
  ssh_key : Option String
  ip_config : Option String
deriving DecidableEq

/-- A VM spec as read from the `vms` section of the configuration.  Every
key the code looks up is a field; `none` models an absent key.  `cloud_init`
models the truthiness of `vm_config.get('cloud_init')`. -/
structure VMConfig where
  id : Option Nat
  name : Option String
  memory : Option Nat
  cores : Option Nat
  sockets : Option String
  ostype : Option String
  scsihw : Option String
  cpu : Option String
  acpi : Option String
  ide2 : Option String
  scsi0 : Option String
  net0 : Option String
  boot : Option String
  boot_order : Option (List String)
  disk : Option VMDisk
  cloud_init : Bool
  ci : Option CloudInit
  tags : Option String
deriving DecidableEq

/-- A VM spec with every key absent; concrete specs override fields. -/
def emptyVM : VMConfig :=
  { id := none, name := none, memory := none, cores := none,
    sockets := none, ostype := none, scsihw := none, cpu := none,
    acpi := none, ide2 := none, scsi0 := none, net0 := none,
    boot := none, boot_order := none, disk := none,
    cloud_init := false, ci := none, tags := none }

/-- The creation-parameter dictionary assembled by `_prepare_create_params`.
The required keys (and `net0`, which is always given a value) are plain
fields; optional keys are `Option` fields, `none` meaning the key is absent
from the dictionary. -/
structure CreateParams where
  vmid : Nat
  name : String
  memory : Nat
  cores : Nat
  net0 : String
  sockets : Option String
  ostype : Option String
  scsihw : Option String
  cpu : Option String
  acpi : Option String
  ide2 : Option String
  scsi0 : Option String
  boot : Option String
  ciuser : Option String
  cipassword : Option String
  sshkeys : Option String
  ipconfig0 : Option String
deriving DecidableEq

/-- The network requests `create_vm` can issue against the hypervisor API,
in issue order.  Task-status polling requests are not recorded: the claims
only distinguish the listing, import, config and create endpoints. -/
inductive ApiCall where
  | listVMs : ApiCall
  | importDisk : Nat → String → String → ApiCall
  | getVMConfig : Nat → ApiCall
  | createVM : CreateParams → ApiCall
  | setTags : Nat → String → ApiCall
deriving DecidableEq

/-- The hypervisor-and-filesystem environment a `create_vm` run interacts
with: the vmids of the VMs already on the node (`qemu.get`), local file
existence (`Path.exists`), the configuration's default storage name
(`self.config['storage']['name']`), the status streams of the import and
create tasks of a given vmid, and the device config reported for a vmid
after a disk import (`qemu(vmid).config.get`, in iteration order). -/
structure Env where
  existingVMs : List Nat
  fileExists : String → Bool
  storageName : String
  importPoll : Nat → Nat → TaskStatus
  createPoll : Nat → Nat → TaskStatus
  importedConfig : Nat → List (String × String)

/-- `_validate_vm_config` (src/modules/pve_tools.py lines 83-105).  The
duplicate-id check runs first — after the `qemu.get` network listing — and
evaluates `vm_config['id']` inside the generator, so a spec without an id
raises `KeyError` there as soon as the listing is non-empty (modelled as
`.error ()`); with an empty listing `any` never evaluates the generator body
and the required-parameter check then reports the missing id.  Next come the
required-parameter check and the import-image existence check. -/
def _validate_vm_config (env : Env) (vm : VMConfig) : Except Unit Bool :=
  match vm.id with
  | none => if env.existingVMs.isEmpty then .ok false else .error ()
  | some i =>
    if env.existingVMs.contains i then .ok false
    else if vm.name.isNone || vm.memory.isNone || vm.cores.isNone then .ok false
    else
      match vm.disk with
      | some d =>
        match d.import_img with
        | some p => .ok (env.fileExists p)
        | none => .ok true
      | none => .ok true

/-- `_import_disk_image` (src/modules/pve_tools.py lines 107-128): start
the import task, wait for it with the default timeout; on success fetch the VM
config and return the value of the first `unused*` key as the `scsi0`
volume; `None` (here `none`) on task failure or when no `unused*` key is
found.  All exceptions are caught inside this function. -/
def _import_disk_image (env : Env) (vmid : Nat) (image_path storage : String) :
    Option String × List ApiCall :=
  if wait_for_task (env.importPoll vmid) defaultTaskTimeout then
    match (env.importedConfig vmid).find? (fun kv => strStartsWith kv.1 "unused") with
    | some kv =>
      (some kv.2, [ApiCall.importDisk vmid image_path storage,
                   ApiCall.getVMConfig vmid])
    | none =>
      (none, [ApiCall.importDisk vmid image_path storage,
              ApiCall.getVMConfig vmid])
  else
    (none, [ApiCall.importDisk vmid image_path storage])

/-- `_prepare_disk_params` (src/modules/pve_tools.py lines 130-148): with an
`import_img` key, run the import with the spec's storage override or the
configuration default and return the resulting `scsi0` volume (or nothing
when the import failed — the returned dictionary is then empty); otherwise
pass the direct `scsi0` reference through.  Accessing `vm_config['disk']`
or `vm_config['id']` on a spec lacking them would raise `KeyError`
(modelled as `.error ()`; unreachable from `create_vm`, which validates
first). -/
def _prepare_disk_params (env : Env) (vm : VMConfig) :
    Except Unit (Option String × List ApiCall) :=
  match vm.disk with
  | none => .error ()
  | some d =>
    match d.import_img with
    | some img =>
      match vm.id with
      | none => .error ()
      | some i =>
        .ok (_import_disk_image env i img (d.storage.getD env.storageName))
    | none => .ok (d.scsi0, [])

/-- `_prepare_cloud_init_params` (src/modules/pve_tools.py lines 150-162):
rename the present cloud-init keys. -/
def _prepare_cloud_init_params (ci : CloudInit) : CloudInit :=
  ci

/-- Lines 196-198 of src/modules/pve_tools.py: merge the renamed cloud-init
keys into the dictionary when `vm_config.get('cloud_init')` is truthy and a
`ci` block is present. -/
def applyCloudInit (vm : VMConfig) (p : CreateParams) : CreateParams :=
  if vm.cloud_init then
    match vm.ci with
    | some cic =>
      let q := _prepare_cloud_init_params cic
      { p with ciuser := q.user, cipassword := q.password,
               sshkeys := q.ssh_key, ipconfig0 := q.ip_config }
    | none => p
  else p

/-- `_prepare_create_params` (src/modules/pve_tools.py lines 164-200):
required keys plus the `net0` default, the optional pass-through keys, the
`boot_order` join overriding `boot`, the disk handling (which only touches
the dictionary when the returned disk parameters are non-empty), and the
cloud-init renaming applied when `vm_config.get('cloud_init')` is truthy
and a `ci` block is present.  Missing required keys raise `KeyError`
(modelled as `.error ()`; unreachable from `create_vm`). -/
def _prepare_create_params (env : Env) (vm : VMConfig) :
    Except Unit (CreateParams × List ApiCall) :=
  match vm.id, vm.name, vm.memory, vm.cores with
  | some i, some nm, some mem, some cor =>
    let p0 : CreateParams :=
      { vmid := i, name := nm, memory := mem, cores := cor,
        net0 := vm.net0.getD "model=virtio,bridge=vmbr0",
        sockets := vm.sockets, ostype := vm.ostype, scsihw := vm.scsihw,
        cpu := vm.cpu, acpi := vm.acpi, ide2 := vm.ide2,
        scsi0 := vm.scsi0, boot := vm.boot,
        ciuser := none, cipassword := none, sshkeys := none,
        ipconfig0 := none }
    let p1 :=
      match vm.boot_order with
      | some ord =>
        { p0 with boot := some ("order=" ++ String.intercalate "," ord) }
      | none => p0
    match vm.disk with
    | some _ =>
      match _prepare_disk_params env vm with
      | .error e => .error e
      | .ok (dsk, calls) =>
        let p2 :=
          match dsk with
          | some v => { p1 with scsi0 := some v }
          | none => p1
        .ok (applyCloudInit vm p2, calls)
    | none => .ok (applyCloudInit vm p1, [])
  | _, _, _, _ => .error ()

/-- `_apply_post_create_config` (src/modules/pve_tools.py lines 202-217):
set the tag string when present; its own `except` turns any failure into
`False`. -/
def _apply_post_create_config (vm : VMConfig) : Bool × List ApiCall :=
  match vm.id with
  | none => (false, [])
  | some i =>
    match vm.tags with
    | some t => (true, [ApiCall.setTags i t])
    | none => (true, [])

/-- `create_vm` (src/modules/pve_tools.py lines 219-244): validate (issuing
the `qemu.get` listing), prepare the creation parameters (possibly running
the disk import), submit the create request, wait for its task, then apply
the post-create configuration.  The enclosing `try`/`except` converts any
raised exception into `False`.  The `if not create_params` guard of line
229 is not modelled: the dictionary always holds at least the five required
entries, so the guard can never fire.  Returns the outcome together with
the list of network requests issued. -/
def create_vm (env : Env) (vm : VMConfig) : Bool × List ApiCall :=
  match _validate_vm_config env vm with
  | .error _ => (false, [ApiCall.listVMs])
  | .ok false => (false, [ApiCall.listVMs])
  | .ok true =>
    match _prepare_create_params env vm with
    | .error _ => (false, [ApiCall.listVMs])
    | .ok (params, dcalls) =>
      let calls := ApiCall.listVMs :: (dcalls ++ [ApiCall.createVM params])
      if wait_for_task (env.createPoll params.vmid) defaultTaskTimeout then
        let post := _apply_post_create_config vm
        (post.1, calls ++ post.2)
      else
        (false, calls)

/-- `create_all_vms` (src/modules/pve_tools.py lines 246-264): fold over the
specs in file order, counting successes and failures. -/
def create_all_vms (env : Env) (vms : List VMConfig) : Nat × Nat :=
  vms.foldl
    (fun acc vm => if (create_vm env vm).1 then (acc.1 + 1, acc.2) else (acc.1, acc.2 + 1))
    (0, 0)

/-- The orchestrator's exit status (src/main.py line 80):
`sys.exit(1 if failed > 0 else 0)`. -/
def mainExitCode (res : Nat × Nat) : Nat :=
  if res.2 > 0 then 1 else 0

/-- C3: a spec whose id matches an existing VM on the node is rejected:
`create_vm` returns failure having issued only the listing request — the
create endpoint is never invoked. -/
theorem create_vm_duplicate_id_rejected (env : Env) (vm : VMConfig) (i : Nat)
    (hid : vm.id = some i) (hdup : env.existingVMs.contains i = true) :
    create_vm env vm = (false, [ApiCall.listVMs])
    ∧ ∀ p : CreateParams, ApiCall.createVM p ∉ (create_vm env vm).2 := by
  have hdup' : i ∈ env.existingVMs := by simpa using hdup
  have h : create_vm env vm = (false, [ApiCall.listVMs]) := by
    simp [create_vm, _validate_vm_config, hid, hdup']
  refine ⟨h, ?_⟩
  rw [h]
  simp

/-- Node environment with one existing VM of vmid 100. -/
def envOneVM : Env :=
  { existingVMs := [100], fileExists := fun _ => false,
    storageName := "local-lvm",
    importPoll := fun _ _ => ⟨"stopped", "OK"⟩,
    createPoll := fun _ _ => ⟨"stopped", "OK"⟩,
    importedConfig := fun _ => [] }

/-- A complete spec reusing the already-taken vmid 100. -/
def vmDuplicate : VMConfig :=
  { emptyVM with
    id := some 100
    name := some "dup"
    memory := some 1024
    cores := some 1 }

/-- Witness for C3 at the concrete duplicate spec. -/
theorem create_vm_duplicate_id_rejected_witness :
    create_vm envOneVM vmDuplicate = (false, [ApiCall.listVMs]) :=
  (create_vm_duplicate_id_rejected envOneVM vmDuplicate 100 rfl (by decide)).1

/-- Node environment with no existing VMs and no tasks ever finishing. -/
def envEmptyNode : Env :=
  { existingVMs := [], fileExists := fun _ => false, storageName := "local",
    importPoll := fun _ _ => ⟨"running", ""⟩,
    createPoll := fun _ _ => ⟨"running", ""⟩,
    importedConfig := fun _ => [] }

/-- A spec missing its required `memory` field. -/
def vmMissingMemory : VMConfig :=
  { emptyVM with
    id := some 200
    name := some "no-mem"
    cores := some 1 }

/-- C5 counterexample: on a spec missing `memory`, `create_vm` does return
failure, but only after issuing the `qemu.get` VM-listing request — a
network call made by `_validate_vm_config` before its required-field check —
so the claim's "before making any network call" is false. -/
theorem create_vm_missing_field_counterexample :
    (create_vm envEmptyNode vmMissingMemory).1 = false
    ∧ (create_vm envEmptyNode vmMissingMemory).2 = [ApiCall.listVMs]
    ∧ ApiCall.listVMs ∈ (create_vm envEmptyNode vmMissingMemory).2 := by
  refine ⟨by decide, by decide, by decide⟩

/-- C5 (amended): for every spec missing at least one of the required fields
id, name, memory, cores, `create_vm` returns failure without ever invoking
the create endpoint; the single network request it issues is the VM-listing
call that precedes the required-field check. -/
theorem create_vm_missing_field_rejected (env : Env) (vm : VMConfig)
    (h : vm.id = none ∨ vm.name = none ∨ vm.memory = none ∨ vm.cores = none) :
    create_vm env vm = (false, [ApiCall.listVMs])
    ∧ ∀ p : CreateParams, ApiCall.createVM p ∉ (create_vm env vm).2 := by
  have h1 : create_vm env vm = (false, [ApiCall.listVMs]) := by
    rcases hid : vm.id with _ | i
    · rcases hemp : env.existingVMs.isEmpty with _ | _
      · simp [create_vm, _validate_vm_config, hid, hemp]
      · simp [create_vm, _validate_vm_config, hid, hemp]
    · have hmiss : (vm.name.isNone || vm.memory.isNone || vm.cores.isNone) = true := by
        rcases h with h | h | h | h
        · rw [hid] at h; cases h
        · simp [h]
        · simp [h]
        · simp [h]
      by_cases hdup : i ∈ env.existingVMs
      · simp [create_vm, _validate_vm_config, hid, hdup]
      · simp [create_vm, _validate_vm_config, hid, hdup, hmiss]
  refine ⟨h1, ?_⟩
  rw [h1]
  simp

/-- Witness for the amended C5 at the concrete spec missing `memory`. -/
theorem create_vm_missing_field_rejected_witness :
    create_vm envEmptyNode vmMissingMemory = (false, [ApiCall.listVMs]) :=
  (create_vm_missing_field_rejected envEmptyNode vmMissingMemory
    (Or.inr (Or.inr (Or.inl rfl)))).1

/-- Environment for the import-failure run: the image file exists, the
disk-import task ends `stopped` with a failing exit status, the create
task succeeds. -/
def envImportFail : Env :=
  { existingVMs := [], fileExists := fun _ => true,
    storageName := "local-lvm",
    importPoll := fun _ _ => ⟨"stopped", "import failed"⟩,
    createPoll := fun _ _ => ⟨"stopped", "OK"⟩,
    importedConfig := fun _ => [] }

/-- A spec requesting a disk import. -/
def vmWithImport : VMConfig :=
  { emptyVM with
    id := some 100
    name := some "imported-vm"
    memory := some 2048
    cores := some 2
    disk := some { import_img := some "/images/disk.qcow2", storage := none,
                   scsi0 := none } }

/-- The creation parameters `create_vm` submits in that run: no `scsi0`
entry at all, because the failed import contributed nothing. -/
def importFailParams : CreateParams :=
  { vmid := 100, name := "imported-vm", memory := 2048, cores := 2,
    net0 := "model=virtio,bridge=vmbr0",
    sockets := none, ostype := none, scsihw := none, cpu := none,
    acpi := none, ide2 := none, scsi0 := none, boot := none,
    ciuser := none, cipassword := none, sshkeys := none, ipconfig0 := none }

/-- C1 (code-bug evidence): when the disk-import task fails, `create_vm`
does NOT abort — `_prepare_disk_params` returns an empty dictionary, the
creation parameters still hold the five required entries so the
`if not create_params` guard of line 229 can never fire, and the create
endpoint is invoked anyway, without any imported disk; the run even reports
success.  The spec's "failure here aborts VM creation and returns
ImportError" does not hold on the code. -/
theorem create_vm_import_failure_still_creates :
    wait_for_task (envImportFail.importPoll 100) defaultTaskTimeout = false
    ∧ (create_vm envImportFail vmWithImport).1 = true
    ∧ ApiCall.createVM importFailParams ∈ (create_vm envImportFail vmWithImport).2
    ∧ importFailParams.scsi0 = none := by
  refine ⟨by decide, by decide, by decide, rfl⟩

theorem create_all_aux (env : Env) (vms : List VMConfig) :
    ∀ p : Nat × Nat,
      List.foldl
        (fun acc vm =>
          if (create_vm env vm).1 then (acc.1 + 1, acc.2) else (acc.1, acc.2 + 1))
        p vms
      = (p.1 + List.countP (fun vm => (create_vm env vm).1) vms,
         p.2 + List.countP (fun vm => !(create_vm env vm).1) vms) := by
  induction vms with
  | nil => intro p; simp
  | cons vm rest ih =>
    intro p
    rcases hvm : (create_vm env vm).1 with _ | _
    · rw [List.foldl_cons]
      have hstep :
          (if (create_vm env vm).1 then (p.1 + 1, p.2) else (p.1, p.2 + 1))
            = (p.1, p.2 + 1) := by simp [hvm]
      rw [hstep, ih]
      simp [List.countP_cons, hvm]
      omega
    · rw [List.foldl_cons]
      have hstep :
          (if (create_vm env vm).1 then (p.1 + 1, p.2) else (p.1, p.2 + 1))
            = (p.1 + 1, p.2) := by simp [hvm]
      rw [hstep, ih]
      simp [List.countP_cons, hvm]
      omega

theorem countP_succ_fail (env : Env) (vms : List VMConfig) :
    List.countP (fun vm => (create_vm env vm).1) vms
      + List.countP (fun vm => !(create_vm env vm).1) vms = vms.length := by
  induction vms with
  | nil => simp
  | cons vm rest ih =>
    rcases hvm : (create_vm env vm).1 with _ | _
    · simp [List.countP_cons, hvm]
      omega
    · simp [List.countP_cons, hvm]
      omega

/-- C4: over any list of N specs of which exactly K fail in `create_vm`,
`create_all_vms` returns `(N - K, K)`; the orchestrator's exit status is 1
iff K > 0, and 0 on the empty list; and the counts over a concatenation are
the sums of the counts of the parts — every spec is processed, no failure
aborts the iteration early. -/
theorem create_all_vms_counts (env : Env) (vms : List VMConfig) :
    create_all_vms env vms
      = (vms.length - List.countP (fun vm => !(create_vm env vm).1) vms,
         List.countP (fun vm => !(create_vm env vm).1) vms)
    ∧ (mainExitCode (create_all_vms env vms) = 1 ↔
        0 < List.countP (fun vm => !(create_vm env vm).1) vms)
    ∧ mainExitCode (create_all_vms env []) = 0
    ∧ (∀ l1 l2 : List VMConfig,
        (create_all_vms env (l1 ++ l2)).1
            = (create_all_vms env l1).1 + (create_all_vms env l2).1
        ∧ (create_all_vms env (l1 ++ l2)).2
            = (create_all_vms env l1).2 + (create_all_vms env l2).2) := by
  have hform : ∀ l : List VMConfig,
      create_all_vms env l
        = (List.countP (fun vm => (create_vm env vm).1) l,
           List.countP (fun vm => !(create_vm env vm).1) l) := by
    intro l
    have := create_all_aux env l (0, 0)
    simpa [create_all_vms] using this
  have hsum := countP_succ_fail env vms
  refine ⟨?_, ?_, ?_, ?_⟩
  · rw [hform vms]
    have : List.countP (fun vm => (create_vm env vm).1) vms
        = vms.length - List.countP (fun vm => !(create_vm env vm).1) vms := by
      omega
    rw [this]
  · rw [hform vms]
    simp [mainExitCode]
  · simp [create_all_vms, mainExitCode]
  · intro l1 l2
    rw [hform (l1 ++ l2), hform l1, hform l2]
    constructor
    · simp [List.countP_append]
    · simp [List.countP_append]

/-- C9: with the disk block absent (disk handling is claims C1/C3's
territory), `_prepare_create_params` maps `id→vmid`, passes `name`,
`memory`, `cores` through, passes each optional field through exactly when
present, defaults `net0` to `model=virtio,bridge=vmbr0` when unset, joins
`boot_order` into `boot=order=<comma-joined-list>` (leaving `boot` the
passed-through value otherwise), and, exactly when the spec's `cloud_init`
flag is truthy and a `ci` block is present, maps `user→ciuser`,
`password→cipassword`, `ssh_key→sshkeys`, `ip_config→ipconfig0`, each
included exactly when present in the block. -/
theorem prepare_create_params_spec (env : Env) (vm : VMConfig) (i : Nat)
    (nm : String) (mem cor : Nat)
    (hid : vm.id = some i) (hnm : vm.name = some nm)
    (hmem : vm.memory = some mem) (hcor : vm.cores = some cor)
    (hdisk : vm.disk = none) :
    ∃ P : CreateParams, _prepare_create_params env vm = .ok (P, [])
      ∧ P.vmid = i ∧ P.name = nm ∧ P.memory = mem ∧ P.cores = cor
      ∧ P.sockets = vm.sockets ∧ P.ostype = vm.ostype
      ∧ P.scsihw = vm.scsihw ∧ P.cpu = vm.cpu ∧ P.acpi = vm.acpi
      ∧ P.ide2 = vm.ide2 ∧ P.scsi0 = vm.scsi0
      ∧ P.net0 = vm.net0.getD "model=virtio,bridge=vmbr0"
      ∧ (vm.net0 = none → P.net0 = "model=virtio,bridge=vmbr0")
      ∧ (∀ ord, vm.boot_order = some ord →
          P.boot = some ("order=" ++ String.intercalate "," ord))
      ∧ (vm.boot_order = none → P.boot = vm.boot)
      ∧ (∀ cic, vm.cloud_init = true → vm.ci = some cic →
          P.ciuser = cic.user ∧ P.cipassword = cic.password
          ∧ P.sshkeys = cic.ssh_key ∧ P.ipconfig0 = cic.ip_config)
      ∧ (vm.cloud_init = false ∨ vm.ci = none →
          P.ciuser = none ∧ P.cipassword = none
          ∧ P.sshkeys = none ∧ P.ipconfig0 = none) := by
  rcases hbo : vm.boot_order with _ | ord <;>
    rcases hcl : vm.cloud_init with _ | _ <;>
      rcases hci : vm.ci with _ | cic <;>
        · simp only [_prepare_create_params, applyCloudInit,
            _prepare_cloud_init_params, hid, hnm, hmem, hcor, hdisk, hbo,
            hcl, hci]
          refine ⟨_, rfl, ?_⟩
          simp [hbo, hcl, hci]
          intro h
          simp [h]

/-- Environment for the C9 witness (its contents are irrelevant: no
disk import happens). -/
def envMapping : Env := envEmptyNode

/-- Cloud-init block for the C9 witness, with `ssh_key` absent. -/
def ciMapping : CloudInit :=
  { user := some "admin", password := some "secret", ssh_key := none,
    ip_config := some "ip=dhcp" }

/-- Spec exercising the default `net0`, the `boot_order` join and the
cloud-init renaming, with `ssh_key` absent from the `ci` block. -/
def vmMapping : VMConfig :=
  { emptyVM with
    id := some 9000
    name := some "ci-vm"
    memory := some 4096
    cores := some 4
    sockets := some "1"
    ostype := some "l26"
    boot_order := some ["scsi0", "ide2", "net0"]
    cloud_init := true
    ci := some ciMapping }

/-- Witness for C9 at the concrete spec. -/
theorem prepare_create_params_spec_witness :
    ∃ P : CreateParams, _prepare_create_params envMapping vmMapping = .ok (P, [])
      ∧ P.vmid = 9000 ∧ P.net0 = "model=virtio,bridge=vmbr0"
      ∧ P.boot = some "order=scsi0,ide2,net0"
      ∧ P.ciuser = some "admin" ∧ P.sshkeys = none := by
  obtain ⟨P, hP, hvmid, _, _, _, _, _, _, _, _, _, _, hnet, hnetd, hboot,
      _, hci, _⟩ :=
    prepare_create_params_spec envMapping vmMapping 9000 "ci-vm" 4096 4
      rfl rfl rfl rfl rfl
  refine ⟨P, hP, hvmid, hnetd rfl, ?_, ?_, ?_⟩
  · have := hboot ["scsi0", "ide2", "net0"] rfl
    rw [this]
    rfl
  · exact (hci ciMapping rfl rfl).1
  · exact (hci ciMapping rfl rfl).2.2.1

end PVE

namespace ImageSync

/-- Image extensions recognised by both listing filters
(src/modules/image_manager.py lines 108-109 and 125). -/
def imageExts : List String := [".img", ".qcow2", ".raw", ".iso"]

/-- ASCII lowercasing of one character, as `str.lower` acts on the ASCII
range the extension comparison cares about. -/
def lowerChar (c : Char) : Char :=
  if 'A' ≤ c ∧ c ≤ 'Z' then Char.ofNat (c.toNat + 32) else c

/-- `str.lower` over the character list of a string. -/
def lowerStr (s : String) : String := String.mk (s.toList.map lowerChar)

/-- `str.endswith` for a single suffix, over the character lists. -/
def strEndsWith (s sfx : String) : Bool := List.isSuffixOf sfx.toList s.toList

/-- `pathlib.Path.suffix`: the substring from the last dot of the name, but
only when that dot is neither the first nor the last character; otherwise the
empty string. -/
def pathSuffix (name : String) : String :=
  let cs := name.toList
  let n := cs.length
  match ((List.range n).filter (fun i => cs.getD i ' ' = '.')).getLast? with
  | some i => if 0 < i ∧ i < n - 1 then String.mk (cs.drop i) else ""
  | none => ""

/-- Local listing filter (src/modules/image_manager.py line 109):
`f.suffix.lower() in ('.img', '.qcow2', '.raw', '.iso')`. -/
def isLocalImageFile (name : String) : Bool :=
  imageExts.contains (lowerStr (pathSuffix name))

/-- Remote listing filter (src/modules/image_manager.py line 125):
`f.lower().endswith(('.img', '.qcow2', '.raw', '.iso'))`. -/
def isRemoteImageFile (name : String) : Bool :=
  imageExts.any (fun ext => strEndsWith (lowerStr name) ext)

/-- State of an `ImageManager` session.  `ssh` is whether `self.ssh` holds a
client object, `sftp` whether `self.sftp` holds an open file-transfer
channel; `localFiles` and `remoteFiles` are the file names in the local and
remote image directories. -/
structure ImageManager where
  ssh : Bool
  sftp : Bool
  localFiles : List String
  remoteFiles : List String
deriving DecidableEq

/-- Behaviour of the SFTP transfer itself: whether `sftp.put` of a file
succeeds, and the `(bytesTransferred, totalBytes)` pairs paramiko reports to
the progress callback during the transfer. -/
structure TransferEnv where
  putOk : String → Bool
  putTrace : String → List (Nat × Nat)

/-- `connect` (src/modules/image_manager.py lines 69-85): on success both the
client and the channel are set; on failure the exception is caught, `False`
is returned, `self.ssh` was already assigned a fresh client object and
`self.sftp` stays unset. -/
def connect (ok : Bool) (s : ImageManager) : Bool × ImageManager :=
  if ok then (true, { s with ssh := true, sftp := true })
  else (false, { s with ssh := true, sftp := false })

/-- `disconnect` (src/modules/image_manager.py lines 87-93): close the
channel and the client only if they are set; never raises. -/
def disconnect_exc (s : ImageManager) : Except String ImageManager :=
  let s1 := if s.sftp then { s with sftp := false } else s
  let s2 := if s1.ssh then { s1 with ssh := false } else s1
  .ok s2

/-- `__enter__` (src/modules/image_manager.py lines 95-98): attempt to
connect, ignore the returned flag, hand back the manager. -/
def enterContext (ok : Bool) (s : ImageManager) : ImageManager :=
  (connect ok s).2

/-- `__exit__` (src/modules/image_manager.py lines 100-102). -/
def exitContext (s : ImageManager) : Except String ImageManager :=
  disconnect_exc s

/-- `list_local_images` (src/modules/image_manager.py lines 104-114). -/
def list_local_images (s : ImageManager) : List String :=
  s.localFiles.filter isLocalImageFile

/-- Body of the `try` block of `list_remote_images`
(src/modules/image_manager.py lines 120-127): raises `ConnectionError` when
no channel is open, otherwise filters the remote directory listing. -/
def list_remote_images_exc (s : ImageManager) : Except String (List String) :=
  if s.sftp = false then .error "Not connected to PVE host"
  else .ok (s.remoteFiles.filter isRemoteImageFile)

/-- `list_remote_images` (src/modules/image_manager.py lines 117-130): the
`except` clause catches every exception, logs it and returns `[]`. -/
def list_remote_images (s : ImageManager) : List String :=
  match list_remote_images_exc s with
  | .ok l => l
  | .error _ => []

/-- The percentage handed to the user callback
(src/modules/image_manager.py line 165): `(transferred / total) * 100`. -/
def progressPercent (p : Nat × Nat) : ℚ :=
  ((p.1 : ℚ) / (p.2 : ℚ)) * 100

/-- Body of the `try` block of `upload_image`
(src/modules/image_manager.py lines 144-173): raise if not connected, raise
if the local file is missing, return `False` without transferring when the
remote stat succeeds (file already present), otherwise `put` the file —
reporting progress through the wrapped callback when one was given — and
return `True`.  The result carries the flag, the resulting remote state and
the list of percentages passed to the callback. -/
def upload_image_exc (env : TransferEnv) (s : ImageManager) (filename : String)
    (hasCallback : Bool) : Except String (Bool × ImageManager × List ℚ) :=
  if s.sftp = false then .error "Not connected to PVE host"
  else if ¬ s.localFiles.contains filename then
    .error ("Local file not found: " ++ filename)
  else if s.remoteFiles.contains filename then .ok (false, s, [])
  else if env.putOk filename then
    .ok (true, { s with remoteFiles := s.remoteFiles ++ [filename] },
         if hasCallback then (env.putTrace filename).map progressPercent else [])
  else .error "transfer failed"

/-- `upload_image` (src/modules/image_manager.py lines 133-177): the
`except` clause turns every raised error into a logged `False` with the
remote directory left as it was. -/
def upload_image (env : TransferEnv) (s : ImageManager) (filename : String)
    (hasCallback : Bool) : Bool × ImageManager × List ℚ :=
  match upload_image_exc env s filename hasCallback with
  | .ok r => r
  | .error _ => (false, s, [])

/-- The new-image computation of `push_image` (src/main.py line 18):
`[img for img in local_images if img not in remote_images]`. -/
def diff (locImgs remImgs : List String) : List String :=
  locImgs.filter (fun img => ¬ remImgs.contains img)

/-- C7: `diff` returns exactly the filenames present in the local listing but
absent from the remote listing, preserving local-listing order (it is a
sublist of the local listing); `diff l l = []` and `diff l [] = l`. -/
theorem diff_spec :
    (∀ (locImgs remImgs : List String) (x : String),
      x ∈ diff locImgs remImgs ↔ x ∈ locImgs ∧ x ∉ remImgs)
    ∧ (∀ l : List String, diff l l = [])
    ∧ (∀ l : List String, diff l [] = l)
    ∧ (∀ (locImgs remImgs : List String),
        List.Sublist (diff locImgs remImgs) locImgs) := by
  refine ⟨?_, ?_, ?_, ?_⟩
  · intro locImgs remImgs x
    simp [diff]
  · intro l
    refine List.filter_eq_nil_iff.mpr ?_
    intro a ha
    simp [ha]
  · intro l
    refine List.filter_eq_self.mpr ?_
    intro a _
    simp
  · intro locImgs remImgs
    exact List.filter_sublist locImgs

/-- A session on which `connect` was never called: no client, no channel,
with one image actually sitting in the remote directory. -/
def sNotConnected : ImageManager :=
  { ssh := false, sftp := false, localFiles := [], remoteFiles := ["a.iso"] }

/-- A connected session whose remote directory is empty. -/
def sConnectedEmptyRemote : ImageManager :=
  { ssh := true, sftp := true, localFiles := [], remoteFiles := [] }

/-- C8 counterexample: called before `open`, `list_remote_images` does NOT
surface a failure to its caller — it returns `[]`, the very value a normal
listing of a connected session with an empty remote directory returns, even
though the unconnected session's remote directory actually holds `a.iso`.
The claim that the caller gets a `NotConnectedError` rather than a normal
listing result is therefore false. -/
theorem list_remote_before_open_counterexample :
    list_remote_images sNotConnected = []
    ∧ list_remote_images sConnectedEmptyRemote = []
    ∧ sNotConnected.remoteFiles = ["a.iso"] := by
  refine ⟨rfl, ?_, rfl⟩
  simp [list_remote_images, list_remote_images_exc, sConnectedEmptyRemote]

/-- C8 (amended): when `list_remote_images` is called before `open`, its
`try` body raises a not-connected `ConnectionError`, but the function's own
`except` clause catches it, logs, and returns the empty list — the caller
receives a normal (empty) listing result, not a failure. -/
theorem list_remote_before_open_spec (s : ImageManager) (h : s.sftp = false) :
    list_remote_images_exc s = .error "Not connected to PVE host"
    ∧ list_remote_images s = [] := by
  constructor
  · simp [list_remote_images_exc, h]
  · simp [list_remote_images, list_remote_images_exc, h]

/-- Witness for the amended C8 at the concrete unconnected session. -/
theorem list_remote_before_open_spec_witness :
    list_remote_images_exc sNotConnected = .error "Not connected to PVE host"
    ∧ list_remote_images sNotConnected = [] :=
  list_remote_before_open_spec sNotConnected rfl

/-- C10: entering an `ImageManager` context never raises on connection
failure — `connect` returns `False` with the channel left unset, `__enter__`
still hands back the manager in that state, a subsequent remote listing
returns `[]` and an upload returns `False` with the state unchanged instead
of raising past the session boundary, and `__exit__`'s `disconnect` is a
safe no-op on the never-opened channel (it merely closes the client object
that was assigned before the connection attempt failed). -/
theorem context_enter_safe (s : ImageManager) (env : TransferEnv)
    (fn : String) (cb : Bool) :
    (connect false s).1 = false
    ∧ (enterContext false s).sftp = false
    ∧ enterContext false s = (connect false s).2
    ∧ list_remote_images (enterContext false s) = []
    ∧ upload_image env (enterContext false s) fn cb =
        (false, enterContext false s, [])
    ∧ exitContext (enterContext false s) =
        .ok { enterContext false s with ssh := false }
    ∧ exitContext { s with ssh := false, sftp := false } =
        .ok { s with ssh := false, sftp := false } := by
  refine ⟨rfl, rfl, rfl, ?_, ?_, ?_, ?_⟩
  · simp [list_remote_images, list_remote_images_exc, enterContext, connect]
  · simp [upload_image, upload_image_exc, enterContext, connect]
  · simp [exitContext, disconnect_exc, enterContext, connect]
  · simp [exitContext, disconnect_exc]

/-- C6: `upload_image` refuses (returns `False` with the remote directory
unchanged and no progress reported) when the remote file already exists or
the local file is missing; on a connected session with the local file
present and the remote file absent, a successful transfer returns `True`,
appends the file to the remote directory — so a subsequent listing shows it
— and feeds the progress callback the percentage of each reported
`(transferred, total)` pair; a failed transfer yields a non-fatal `False`
with the remote directory unchanged. -/
theorem upload_image_spec (env : TransferEnv) (s : ImageManager)
    (fn : String) (cb : Bool) :
    (fn ∈ s.remoteFiles → upload_image env s fn cb = (false, s, []))
    ∧ (fn ∉ s.localFiles → upload_image env s fn cb = (false, s, []))
    ∧ (s.sftp = true → fn ∈ s.localFiles → fn ∉ s.remoteFiles →
        env.putOk fn = true →
        upload_image env s fn cb =
          (true, { s with remoteFiles := s.remoteFiles ++ [fn] },
           if cb then (env.putTrace fn).map progressPercent else [])
        ∧ fn ∈ (upload_image env s fn cb).2.1.remoteFiles
        ∧ (isRemoteImageFile fn = true →
            fn ∈ list_remote_images (upload_image env s fn cb).2.1))
    ∧ (s.sftp = true → fn ∈ s.localFiles → fn ∉ s.remoteFiles →
        env.putOk fn = false →
        upload_image env s fn cb = (false, s, [])) := by
  refine ⟨?_, ?_, ?_, ?_⟩
  · intro hrem
    rcases hsftp : s.sftp with _ | _
    · simp [upload_image, upload_image_exc, hsftp]
    · by_cases hloc : fn ∈ s.localFiles
      · simp [upload_image, upload_image_exc, hsftp, hloc, hrem]
      · simp [upload_image, upload_image_exc, hsftp, hloc]
  · intro hloc
    rcases hsftp : s.sftp with _ | _
    · simp [upload_image, upload_image_exc, hsftp]
    · simp [upload_image, upload_image_exc, hsftp, hloc]
  · intro hsftp hloc hrem hput
    have hres : upload_image env s fn cb =
        (true, { s with remoteFiles := s.remoteFiles ++ [fn] },
         if cb then (env.putTrace fn).map progressPercent else []) := by
      simp [upload_image, upload_image_exc, hsftp, hloc, hrem, hput]
    refine ⟨hres, ?_, ?_⟩
    · rw [hres]
      simp
    · intro himg
      rw [hres]
      simp [list_remote_images, list_remote_images_exc, hsftp,
        List.filter_append, himg]
  · intro hsftp hloc hrem hput
    simp [upload_image, upload_image_exc, hsftp, hloc, hrem, hput]

/-- Transfer environment for the upload witness: transfers succeed, paramiko
reports two progress pairs. -/
def uploadEnvW : TransferEnv :=
  { putOk := fun _ => true, putTrace := fun _ => [(512, 1024), (1024, 1024)] }

/-- Connected session for the upload witness: `b.qcow2` present locally only. -/
def sUploadW : ImageManager :=
  { ssh := true, sftp := true, localFiles := ["b.qcow2"],
    remoteFiles := ["a.iso"] }

/-- Witness for C6: uploading `b.qcow2` on the concrete connected session
succeeds and a subsequent remote listing contains it. -/
theorem upload_image_spec_witness :
    (upload_image uploadEnvW sUploadW "b.qcow2" true).1 = true
    ∧ "b.qcow2" ∈ (upload_image uploadEnvW sUploadW "b.qcow2" true).2.1.remoteFiles
    ∧ "b.qcow2" ∈ list_remote_images
        (upload_image uploadEnvW sUploadW "b.qcow2" true).2.1 := by
  have h := (upload_image_spec uploadEnvW sUploadW "b.qcow2" true).2.2.1
    rfl (by decide) (by decide) rfl
  exact ⟨by rw [h.1], h.2.1, h.2.2 (by decide)⟩

end ImageSync
